import Mathlib

/-!
Verification of the order lifecycle / checkout state machine of the
KTPM_DoAn e-commerce backend.

The backend's order engine lives in `backend/routes/orderRoutes.js`
(wired in `backend/app.js` as `app.use('/api/orders', orderRouter)`).
That file is not part of the available source tree; only its callers,
its wiring and an extensive white-box test suite
(`backend/tests/unit/whitebox-order.test.js`,
`backend/tests/unit/whitebox-order-security.test.js`, integration and
data-model tests) are available.  The operations below are therefore
modelled from the specification's §4 (Component Design), with the exact
branch structure pinned down by the white-box tests, which quote the
handler's code verbatim (e.g. "Line 137:
`if (order.paymentMethod === 'COD' && !order.isPaid)`").

Identifiers (Mongo ObjectIds) are modelled as `Nat`, timestamps as
`Nat`, money amounts as `Int`; the document store is an association
list keyed by id, and the per-user Cart collection (whose schema is in
`backend/models/cartModel.js`, with `user` unique) is a list of carts.
-/

namespace KTPM

/-- Shipping address sub-document of an order / cart
(`shippingAddress` in the order schema and `cartModel.js`). -/
structure ShippingAddress where
  fullName : String
  address : String
  city : String
  postalCode : String
  country : String
deriving DecidableEq, Repr

/-- One order line item (`orderItems` entry: `_id`/product ref, name,
slug, image, price, quantity). -/
structure OrderItem where
  product : Nat
  name : String
  slug : String
  image : String
  price : Int
  quantity : Int
deriving DecidableEq, Repr

/-- One cart line item, shape from `backend/models/cartModel.js`
(`cartItems` entries additionally carry `countInStock`). -/
structure CartItem where
  product : Nat
  name : String
  slug : String
  image : String
  price : Int
  quantity : Int
  countInStock : Int
deriving DecidableEq, Repr

/-- Payment confirmation record (`paymentResult` in the order schema:
`{id, status, update_time, email_address}`; the spec calls the `id`
field `externalId`). -/
structure PaymentResult where
  id : String
  status : String
  update_time : Nat
  email_address : String
deriving DecidableEq, Repr

/-- An order document.  Field names follow the Mongo schema exercised
by the tests: `user` is the owner principal's id, `status` is one of
the five enumerated strings, `paidAt` / `deliveredAt` / `paymentResult`
are unset (`none`) until the corresponding transition happens. -/
structure Order where
  user : Nat
  orderItems : List OrderItem
  shippingAddress : ShippingAddress
  paymentMethod : String
  itemsPrice : Int
  shippingPrice : Int
  taxPrice : Int
  totalPrice : Int
  isPaid : Bool
  paidAt : Option Nat
  paymentResult : Option PaymentResult
  isDelivered : Bool
  deliveredAt : Option Nat
  status : String
deriving DecidableEq, Repr

/-- A cart document (`backend/models/cartModel.js`); `user` is unique
in the collection. -/
structure Cart where
  user : Nat
  cartItems : List CartItem
  shippingAddress : ShippingAddress
  paymentMethod : String
deriving DecidableEq, Repr

/-- The authenticated caller resolved by the auth middleware:
an id plus the admin flag. -/
structure Principal where
  id : Nat
  isAdmin : Bool
deriving DecidableEq, Repr

/-- The persistent state the engine operates on: the Order collection
(keyed by id), the Cart collection (one cart per user), and the id
counter the store uses to mint fresh order ids. -/
structure DB where
  orders : List (Nat × Order)
  carts : List Cart
  nextOrderId : Nat
deriving DecidableEq, Repr

/-- Error taxonomy of the spec's §7: distinguishable typed outcomes
(kinds, not HTTP codes; the wire encoding is a transport concern). -/
inductive OrderError where
  | unauthenticated
  | forbidden
  | notFound
  | validation
  | storage
deriving DecidableEq, Repr

/-- Client-supplied request body for order creation.  It carries an
optional owner-like `user` field so that the model can express that
such a field is ignored (test WB-ORD-SEC-001d sends one). -/
structure OrderPayload where
  user : Option Nat
  orderItems : List OrderItem
  shippingAddress : ShippingAddress
  paymentMethod : String
  itemsPrice : Int
  shippingPrice : Int
  taxPrice : Int
  totalPrice : Int
deriving DecidableEq, Repr

/-- Look up an order by id in the collection (`Order.findById`). -/
def lookupOrder : List (Nat × Order) → Nat → Option Order
  | [], _ => none
  | (i, o) :: rest, oid => if i = oid then some o else lookupOrder rest oid

/-- Look up an order by id in the database. -/
def findOrder (db : DB) (oid : Nat) : Option Order :=
  lookupOrder db.orders oid

/-- Persist an updated order document under its id (`order.save()` on
a fetched document: replaces the stored document with that id). -/
def storeOrder : List (Nat × Order) → Nat → Order → List (Nat × Order)
  | [], _, _ => []
  | (i, o) :: rest, oid, o' =>
      if i = oid then (i, o') :: storeOrder rest oid o'
      else (i, o) :: storeOrder rest oid o'

/-- `order.save()` at the database level. -/
def saveOrder (db : DB) (oid : Nat) (o : Order) : DB :=
  { db with orders := storeOrder db.orders oid o }

/-- Find the cart of a user (`Cart.findOne({user})`). -/
def findCart : List Cart → Nat → Option Cart
  | [], _ => none
  | c :: rest, uid => if c.user = uid then some c else findCart rest uid

/-- Delete the cart of a user (`Cart.deleteOne({user})`; `user` is
unique so removing every match coincides with removing the one
document, and the operation succeeds when no cart exists). -/
def deleteCartByUser : List Cart → Nat → List Cart
  | [], _ => []
  | c :: rest, uid =>
      if c.user = uid then deleteCartByUser rest uid
      else c :: deleteCartByUser rest uid

/-- The five status values of the order schema's enum
(`{Pending, Processing, Shipping, Delivered, Cancelled}`,
default `Pending`; TC_DATA_OM_003 shows any other value is rejected
at save time). -/
def orderStatuses : List String :=
  ["Pending", "Processing", "Shipping", "Delivered", "Cancelled"]

/-- The synthetic payment confirmation the engine writes for a COD
order delivered before payment: `{id:"COD", status:"PAID",
update_time:now, email_address:""}` (WB-010 checks
`paymentResult.id == 'COD'`). -/
def codPaymentResult (now : Nat) : PaymentResult :=
  { id := "COD", status := "PAID", update_time := now, email_address := "" }

/-- Modelled from the spec: `createOrder` (§4.1, `POST /api/orders`);
`routes/orderRoutes.js` is not in the source tree.  The owner is
forced to `caller.id` — the payload's `user` field is never read —
and the new order starts `Pending`, unpaid, undelivered, with the
remaining fields taken from the payload as given (no price or item
validation). -/
def createOrder (caller : Principal) (p : OrderPayload) (db : DB) : DB × Order :=
  let o : Order :=
    { user := caller.id
      orderItems := p.orderItems
      shippingAddress := p.shippingAddress
      paymentMethod := p.paymentMethod
      itemsPrice := p.itemsPrice
      shippingPrice := p.shippingPrice
      taxPrice := p.taxPrice
      totalPrice := p.totalPrice
      isPaid := false
      paidAt := none
      paymentResult := none
      isDelivered := false
      deliveredAt := none
      status := "Pending" }
  ({ db with
      orders := db.orders ++ [(db.nextOrderId, o)]
      nextOrderId := db.nextOrderId + 1 }, o)

/-- Modelled from the spec: `payOrder` (§4.2, `PUT /api/orders/:id/pay`);
`routes/orderRoutes.js` is not in the source tree.  Looks the order up
(404 branch when absent, WB-004); there is no ownership check
(WB-ORD-SEC-003c) and no already-paid guard (WB-ORD-SEC-004c); sets
`isPaid`, `paidAt`, and stores the confirmation verbatim
(WB-ORD-SEC-004a/b/d); then deletes the caller's cart unconditionally
(WB-005). -/
def payOrder (caller : Principal) (orderId : Nat) (pc : PaymentResult)
    (now : Nat) (db : DB) : Except OrderError (DB × Order) :=
  match findOrder db orderId with
  | none => .error .notFound
  | some o =>
      let o' := { o with isPaid := true, paidAt := some now, paymentResult := some pc }
      let db1 := saveOrder db orderId o'
      let db2 := { db1 with carts := deleteCartByUser db1.carts caller.id }
      .ok (db2, o')

/-- Modelled from the spec: `updateOrderStatus` (§4.3,
`PUT /api/orders/:id/status`); `routes/orderRoutes.js` is not in the
source tree.  Admin-only (the non-admin rejection, worded
"Invalid Admin Token" on the wire, is the taxonomy's ForbiddenError);
404 branch when the order is absent (WB-006); an out-of-enum status is
rejected by the schema at save time with the order unchanged
(WB-ORD-SEC-006c, TC_DATA_OM_003), modelled as the taxonomy's
ValidationError.  The `Delivered` branch sets `isDelivered` and
`deliveredAt`, and — under the guard the white-box tests quote from
the handler, "Line 137:
`if (order.paymentMethod === 'COD' && !order.isPaid)`" — forces the
payment fields with the synthetic COD confirmation and deletes the
owner's cart (WB-010, WB-013, WB-014, WB-ORD-SEC-010c).  Every other
target status changes the `status` field only (WB-007/008/012). -/
def updateOrderStatus (caller : Principal) (orderId : Nat) (newStatus : String)
    (now : Nat) (db : DB) : Except OrderError (DB × Order) :=
  if caller.isAdmin = true then
    match findOrder db orderId with
    | none => .error .notFound
    | some o =>
        if newStatus ∈ orderStatuses then
          let o1 := { o with status := newStatus }
          if newStatus = "Delivered" then
            let o2 := { o1 with isDelivered := true, deliveredAt := some now }
            if o.paymentMethod = "COD" ∧ o.isPaid = false then
              let o3 := { o2 with
                isPaid := true, paidAt := some now,
                paymentResult := some (codPaymentResult now) }
              let db1 := saveOrder db orderId o3
              let db2 := { db1 with carts := deleteCartByUser db1.carts o.user }
              .ok (db2, o3)
            else
              .ok (saveOrder db orderId o2, o2)
          else
            .ok (saveOrder db orderId o1, o1)
        else
          .error .validation
  else
    .error .forbidden

/-- Modelled from the spec: `getOrderById` (§4.4, `GET /api/orders/:id`);
`routes/orderRoutes.js` is not in the source tree.  No ownership check
(WB-ORD-SEC-008b); 404 when absent (WB-002). -/
def getOrderById (_caller : Principal) (orderId : Nat) (db : DB) :
    Except OrderError Order :=
  match findOrder db orderId with
  | some o => .ok o
  | none => .error .notFound

/-- Modelled from the spec: `listAllOrders` (§4.4, `GET /api/orders`);
`routes/orderRoutes.js` is not in the source tree.  Admin-only
(WB-ORD-SEC-005a/b). -/
def listAllOrders (caller : Principal) (db : DB) :
    Except OrderError (List (Nat × Order)) :=
  if caller.isAdmin = true then .ok db.orders else .error .forbidden

/-- The operations an external caller can invoke against the store,
used to define which database states are reachable.  `saveCart`
upserts a cart for a user (the cart routes in `cartModel.js`'s
companion router), which does not touch the Order collection. -/
inductive Op where
  | create (caller : Principal) (p : OrderPayload)
  | pay (caller : Principal) (orderId : Nat) (pc : PaymentResult) (now : Nat)
  | setStatus (caller : Principal) (orderId : Nat) (newStatus : String) (now : Nat)
  | saveCart (c : Cart)

/-- One request-response unit of work: a failed operation leaves the
store unchanged (§7: no partial writes from the engine's own logic). -/
def applyOp (db : DB) : Op → DB
  | .create caller p => (createOrder caller p db).1
  | .pay caller oid pc now =>
      match payOrder caller oid pc now db with
      | .ok (db', _) => db'
      | .error _ => db
  | .setStatus caller oid st now =>
      match updateOrderStatus caller oid st now db with
      | .ok (db', _) => db'
      | .error _ => db
  | .saveCart c =>
      { db with carts := deleteCartByUser db.carts c.user ++ [c] }

/-- Run a sequence of operations from a starting state. -/
def runOps (db : DB) (ops : List Op) : DB :=
  ops.foldl applyOp db

/-- The store before any order exists. -/
def emptyDB : DB := { orders := [], carts := [], nextOrderId := 0 }

/-- A database state is reachable when some sequence of engine
operations produces it from the empty store. -/
def Reachable (db : DB) : Prop :=
  ∃ ops : List Op, runOps emptyDB ops = db

/-- The order document `payOrder` writes: payment fields set, the
confirmation stored verbatim, everything else untouched. -/
def paidOrder (o : Order) (pc : PaymentResult) (now : Nat) : Order :=
  { o with isPaid := true, paidAt := some now, paymentResult := some pc }

/-- The order document a non-`Delivered` status update writes: only
the `status` field changes. -/
def withStatus (o : Order) (st : String) : Order :=
  { o with status := st }

/-- The order document a `Delivered` update writes when the COD
auto-pay guard does not fire: delivery fields set, payment fields
untouched. -/
def deliveredOrder (o : Order) (now : Nat) : Order :=
  { o with status := "Delivered", isDelivered := true, deliveredAt := some now }

/-- The order document a `Delivered` update writes for an unpaid COD
order: delivery fields set and payment forced with the synthetic COD
confirmation. -/
def deliveredCodOrder (o : Order) (now : Nat) : Order :=
  { o with
      status := "Delivered", isDelivered := true, deliveredAt := some now,
      isPaid := true, paidAt := some now,
      paymentResult := some (codPaymentResult now) }

/-- The delivery-related consistency of a single order document:
`isDelivered` agrees with `deliveredAt`, and a `Delivered` status
implies the delivery flag. -/
def deliveryConsistent (o : Order) : Prop :=
  (o.isDelivered = true ↔ o.deliveredAt ≠ none) ∧
  (o.status = "Delivered" → o.isDelivered = true)

/-- Every order stored in the database is delivery-consistent. -/
def OrdersInv (db : DB) : Prop :=
  ∀ p ∈ db.orders, deliveryConsistent p.2

/-- Concrete shipping address used by the test fixtures. -/
def demoAddress : ShippingAddress :=
  { fullName := "Test User", address := "123 St", city := "HCM",
    postalCode := "70000", country := "VN" }

/-- A regular (non-admin) principal, id 1. -/
def demoUser : Principal := { id := 1, isAdmin := false }

/-- A second regular principal, id 2 (for cross-user scenarios). -/
def otherUser : Principal := { id := 2, isAdmin := false }

/-- An admin principal, id 9. -/
def demoAdmin : Principal := { id := 9, isAdmin := true }

/-- A concrete order line item. -/
def demoItem : OrderItem :=
  { product := 100, name := "Test Product", slug := "test-product",
    image := "/images/test.jpg", price := 100000, quantity := 1 }

/-- A concrete cart line item. -/
def demoCartItem : CartItem :=
  { product := 100, name := "Test Product", slug := "test-product",
    image := "/images/test.jpg", price := 100000, quantity := 1,
    countInStock := 10 }

/-- `demoUser`'s cart. -/
def demoCart : Cart :=
  { user := 1, cartItems := [demoCartItem], shippingAddress := demoAddress,
    paymentMethod := "COD" }

/-- A request body for order creation that tries to smuggle in an
owner field (`user := some 2`), as in test WB-ORD-SEC-001d. -/
def demoPayload : OrderPayload :=
  { user := some 2, orderItems := [demoItem], shippingAddress := demoAddress,
    paymentMethod := "PayPal", itemsPrice := 100000, shippingPrice := 20000,
    taxPrice := 10000, totalPrice := 130000 }

/-- A pending unpaid COD order owned by `demoUser`. -/
def codOrder : Order :=
  { user := 1, orderItems := [demoItem], shippingAddress := demoAddress,
    paymentMethod := "COD", itemsPrice := 100000, shippingPrice := 20000,
    taxPrice := 10000, totalPrice := 130000, isPaid := false, paidAt := none,
    paymentResult := none, isDelivered := false, deliveredAt := none,
    status := "Pending" }

/-- A pending unpaid PayPal order owned by `demoUser`. -/
def paypalOrder : Order := { codOrder with paymentMethod := "PayPal" }

/-- A COD order that is already paid, with a pre-existing payment
confirmation whose external id is "EXISTING" (as in test WB-014). -/
def paidCodOrder : Order :=
  { codOrder with
      isPaid := true, paidAt := some 1,
      paymentResult := some
        { id := "EXISTING", status := "PAID", update_time := 1,
          email_address := "" } }

/-- A PayPal order of `demoUser` already paid with confirmation
"ORIGINAL_PAY" (as in test WB-ORD-SEC-004c). -/
def paidPaypalOrder : Order :=
  { paypalOrder with
      isPaid := true, paidAt := some 1,
      paymentResult := some
        { id := "ORIGINAL_PAY", status := "COMPLETED", update_time := 1,
          email_address := "" } }

/-- Store holding the unpaid COD order under id 0 and `demoUser`'s
cart. -/
def demoDB : DB := { orders := [(0, codOrder)], carts := [demoCart], nextOrderId := 1 }

/-- Store holding the already-paid COD order under id 0. -/
def paidCodDB : DB := { orders := [(0, paidCodOrder)], carts := [], nextOrderId := 1 }

/-- Store holding the unpaid PayPal order under id 0. -/
def paypalDB : DB := { orders := [(0, paypalOrder)], carts := [demoCart], nextOrderId := 1 }

/-- Store holding the already-paid PayPal order of `demoUser` under
id 0 (paid by a different principal in the C6 scenario). -/
def paidPaypalDB : DB := { orders := [(0, paidPaypalOrder)], carts := [], nextOrderId := 1 }

/-- A fresh payment confirmation as sent by the PayPal client
(WB-003). -/
def demoConfirmation : PaymentResult :=
  { id := "PAY-123", status := "COMPLETED", update_time := 7,
    email_address := "test@test.com" }

/-- Operation sequence: create an order, deliver it, then move it
back to Processing. -/
def c3Ops : List Op :=
  [Op.create demoUser demoPayload,
   Op.setStatus demoAdmin 0 "Delivered" 5,
   Op.setStatus demoAdmin 0 "Processing" 6]

/-- The store reached by `c3Ops`. -/
def c3DB : DB := runOps emptyDB c3Ops

/-- Operation sequence: just create an order. -/
def c3wOps : List Op := [Op.create demoUser demoPayload]

/-- The store reached by `c3wOps`. -/
def c3wDB : DB := runOps emptyDB c3wOps

/-- The order created by `c3wOps`. -/
def c3wOrder : Order := (createOrder demoUser demoPayload emptyDB).2

theorem findCart_deleteCartByUser (carts : List Cart) (uid : Nat) :
    findCart (deleteCartByUser carts uid) uid = none := by
  induction carts with
  | nil => rfl
  | cons c rest ih =>
      by_cases h : c.user = uid
      · simp [deleteCartByUser, h, ih]
      · simp [deleteCartByUser, findCart, h, ih]

theorem deleteCartByUser_idem (carts : List Cart) (uid : Nat) :
    deleteCartByUser (deleteCartByUser carts uid) uid = deleteCartByUser carts uid := by
  induction carts with
  | nil => rfl
  | cons c rest ih =>
      by_cases h : c.user = uid
      · simp [deleteCartByUser, h, ih]
      · simp [deleteCartByUser, h, ih]

theorem lookupOrder_storeOrder_self (l : List (Nat × Order)) (oid : Nat) (o o' : Order)
    (h : lookupOrder l oid = some o) :
    lookupOrder (storeOrder l oid o') oid = some o' := by
  induction l with
  | nil => simp [lookupOrder] at h
  | cons p rest ih =>
      obtain ⟨i, ord⟩ := p
      by_cases hi : i = oid
      · simp [storeOrder, lookupOrder, hi]
      · simp only [lookupOrder, storeOrder, hi, if_false, if_neg hi] at h ⊢
        exact ih h

theorem findOrder_saveOrder_self (db : DB) (oid : Nat) (o o' : Order)
    (h : findOrder db oid = some o) :
    findOrder (saveOrder db oid o') oid = some o' :=
  lookupOrder_storeOrder_self db.orders oid o o' h

theorem mem_storeOrder {l : List (Nat × Order)} {oid : Nat} {o' : Order} {p : Nat × Order}
    (h : p ∈ storeOrder l oid o') : p ∈ l ∨ p.2 = o' := by
  induction l with
  | nil => simp [storeOrder] at h
  | cons q rest ih =>
      obtain ⟨i, ord⟩ := q
      by_cases hi : i = oid
      · simp only [storeOrder, hi, if_true, List.mem_cons] at h
        rcases h with h | h
        · right; rw [h]
        · rcases ih h with h' | h'
          · exact Or.inl (List.mem_cons_of_mem _ h')
          · exact Or.inr h'
      · simp only [storeOrder, hi, if_false, if_neg hi, List.mem_cons] at h
        rcases h with h | h
        · exact Or.inl (by rw [h]; exact List.mem_cons_self _ _)
        · rcases ih h with h' | h'
          · exact Or.inl (List.mem_cons_of_mem _ h')
          · exact Or.inr h'

theorem lookupOrder_mem {l : List (Nat × Order)} {oid : Nat} {o : Order}
    (h : lookupOrder l oid = some o) : (oid, o) ∈ l := by
  induction l with
  | nil => simp [lookupOrder] at h
  | cons q rest ih =>
      obtain ⟨i, ord⟩ := q
      by_cases hi : i = oid
      · simp only [lookupOrder, hi, if_true, Option.some.injEq] at h
        rw [← hi, ← h]
        exact List.mem_cons_self _ _
      · simp only [lookupOrder, hi, if_false, if_neg hi] at h
        exact List.mem_cons_of_mem _ (ih h)

theorem saveOrder_carts (db : DB) (oid : Nat) (o : Order) :
    (saveOrder db oid o).carts = db.carts := rfl

theorem payOrder_notFound (caller : Principal) (oid : Nat) (pc : PaymentResult)
    (now : Nat) (db : DB) (hf : findOrder db oid = none) :
    payOrder caller oid pc now db = .error .notFound := by
  simp [payOrder, hf]

theorem payOrder_found (caller : Principal) (oid : Nat) (pc : PaymentResult)
    (now : Nat) (db : DB) (o : Order) (ho : findOrder db oid = some o) :
    payOrder caller oid pc now db =
      .ok ({ saveOrder db oid (paidOrder o pc now) with
              carts := deleteCartByUser db.carts caller.id },
           paidOrder o pc now) := by
  simp [payOrder, ho, paidOrder, saveOrder_carts]

theorem getOrderById_notFound (caller : Principal) (oid : Nat) (db : DB)
    (hf : findOrder db oid = none) :
    getOrderById caller oid db = .error .notFound := by
  simp [getOrderById, hf]

theorem updateOrderStatus_not_admin (caller : Principal) (oid : Nat) (st : String)
    (now : Nat) (db : DB) (ha : caller.isAdmin = false) :
    updateOrderStatus caller oid st now db = .error .forbidden := by
  simp [updateOrderStatus, ha]

theorem updateOrderStatus_notFound (caller : Principal) (oid : Nat) (st : String)
    (now : Nat) (db : DB) (ha : caller.isAdmin = true)
    (hf : findOrder db oid = none) :
    updateOrderStatus caller oid st now db = .error .notFound := by
  simp [updateOrderStatus, ha, hf]

theorem updateOrderStatus_invalid (caller : Principal) (oid : Nat) (st : String)
    (now : Nat) (db : DB) (o : Order) (ha : caller.isAdmin = true)
    (ho : findOrder db oid = some o) (hs : st ∉ orderStatuses) :
    updateOrderStatus caller oid st now db = .error .validation := by
  simp [updateOrderStatus, ha, ho, hs]

theorem updateOrderStatus_other (caller : Principal) (oid : Nat) (st : String)
    (now : Nat) (db : DB) (o : Order) (ha : caller.isAdmin = true)
    (ho : findOrder db oid = some o) (hs : st ∈ orderStatuses)
    (hd : st ≠ "Delivered") :
    updateOrderStatus caller oid st now db =
      .ok (saveOrder db oid (withStatus o st), withStatus o st) := by
  simp [updateOrderStatus, ha, ho, hs, hd, withStatus]

theorem updateOrderStatus_delivered_noAutoPay (caller : Principal) (oid : Nat)
    (now : Nat) (db : DB) (o : Order) (ha : caller.isAdmin = true)
    (ho : findOrder db oid = some o)
    (hg : ¬(o.paymentMethod = "COD" ∧ o.isPaid = false)) :
    updateOrderStatus caller oid "Delivered" now db =
      .ok (saveOrder db oid (deliveredOrder o now), deliveredOrder o now) := by
  have hs : ("Delivered" : String) ∈ orderStatuses := by decide
  simp [updateOrderStatus, ha, ho, hs, hg, deliveredOrder]

theorem updateOrderStatus_delivered_cod (caller : Principal) (oid : Nat)
    (now : Nat) (db : DB) (o : Order) (ha : caller.isAdmin = true)
    (ho : findOrder db oid = some o)
    (hcod : o.paymentMethod = "COD") (hunpaid : o.isPaid = false) :
    updateOrderStatus caller oid "Delivered" now db =
      .ok ({ saveOrder db oid (deliveredCodOrder o now) with
              carts := deleteCartByUser db.carts o.user },
           deliveredCodOrder o now) := by
  have hs : ("Delivered" : String) ∈ orderStatuses := by decide
  simp [updateOrderStatus, ha, ho, hs, hcod, hunpaid, deliveredCodOrder, saveOrder_carts]

theorem deliveryConsistent_paidOrder {o : Order} (h : deliveryConsistent o)
    (pc : PaymentResult) (now : Nat) : deliveryConsistent (paidOrder o pc now) :=
  h

theorem deliveryConsistent_withStatus {o : Order} (h : deliveryConsistent o)
    {st : String} (hd : st ≠ "Delivered") : deliveryConsistent (withStatus o st) :=
  ⟨h.1, fun hc => absurd hc hd⟩

theorem deliveryConsistent_deliveredOrder (o : Order) (now : Nat) :
    deliveryConsistent (deliveredOrder o now) :=
  ⟨by simp [deliveredOrder], fun _ => rfl⟩

theorem deliveryConsistent_deliveredCodOrder (o : Order) (now : Nat) :
    deliveryConsistent (deliveredCodOrder o now) :=
  ⟨by simp [deliveredCodOrder], fun _ => rfl⟩

theorem ordersInv_saveOrder {db : DB} (h : OrdersInv db) {oid : Nat} {o' : Order}
    (h' : deliveryConsistent o') : OrdersInv (saveOrder db oid o') := by
  intro p hp
  rcases mem_storeOrder hp with hp' | hp'
  · exact h p hp'
  · rw [hp']; exact h'

theorem deliveryConsistent_of_findOrder {db : DB} (h : OrdersInv db) {oid : Nat}
    {o : Order} (ho : findOrder db oid = some o) : deliveryConsistent o :=
  h (oid, o) (lookupOrder_mem ho)

theorem ordersInv_applyOp {db : DB} (h : OrdersInv db) (op : Op) :
    OrdersInv (applyOp db op) := by
  cases op with
  | create caller p =>
      intro q hq
      simp only [applyOp, createOrder, List.mem_append, List.mem_singleton] at hq
      rcases hq with hq | hq
      · exact h q hq
      · rw [hq]
        exact ⟨by simp, by simp⟩
  | pay caller oid pc now =>
      cases hf : findOrder db oid with
      | none =>
          intro q hq
          simp only [applyOp, payOrder, hf] at hq
          exact h q hq
      | some o =>
          intro q hq
          rw [applyOp, payOrder_found caller oid pc now db o hf] at hq
          exact ordersInv_saveOrder h
            (deliveryConsistent_paidOrder (deliveryConsistent_of_findOrder h hf) pc now) q hq
  | setStatus caller oid st now =>
      by_cases ha : caller.isAdmin = true
      · cases hf : findOrder db oid with
        | none =>
            intro q hq
            rw [applyOp, updateOrderStatus_notFound caller oid st now db ha hf] at hq
            exact h q hq
        | some o =>
            by_cases hs : st ∈ orderStatuses
            · by_cases hd : st = "Delivered"
              · subst hd
                by_cases hg : o.paymentMethod = "COD" ∧ o.isPaid = false
                · intro q hq
                  rw [applyOp,
                      updateOrderStatus_delivered_cod caller oid now db o ha hf hg.1 hg.2] at hq
                  exact ordersInv_saveOrder h
                    (deliveryConsistent_deliveredCodOrder o now) q hq
                · intro q hq
                  rw [applyOp,
                      updateOrderStatus_delivered_noAutoPay caller oid now db o ha hf hg] at hq
                  exact ordersInv_saveOrder h
                    (deliveryConsistent_deliveredOrder o now) q hq
              · intro q hq
                rw [applyOp,
                    updateOrderStatus_other caller oid st now db o ha hf hs hd] at hq
                exact ordersInv_saveOrder h
                  (deliveryConsistent_withStatus (deliveryConsistent_of_findOrder h hf) hd) q hq
            · intro q hq
              rw [applyOp, updateOrderStatus_invalid caller oid st now db o ha hf hs] at hq
              exact h q hq
      · intro q hq
        rw [applyOp,
            updateOrderStatus_not_admin caller oid st now db (by simpa using ha)] at hq
        exact h q hq
  | saveCart c =>
      intro q hq
      simp only [applyOp] at hq
      exact h q hq

theorem ordersInv_runOps {db : DB} (h : OrdersInv db) (ops : List Op) :
    OrdersInv (runOps db ops) := by
  induction ops generalizing db with
  | nil => exact h
  | cons op rest ih => exact ih (ordersInv_applyOp h op)

theorem ordersInv_emptyDB : OrdersInv emptyDB := by
  intro p hp
  simp [emptyDB] at hp

theorem ordersInv_reachable {db : DB} (h : Reachable db) : OrdersInv db := by
  obtain ⟨ops, hops⟩ := h
  exact hops ▸ ordersInv_runOps ordersInv_emptyDB ops

/-- C1: for every order with `paymentMethod == "COD"` and
`isPaid == false`, a successful `updateOrderStatus(admin, id,
"Delivered")` yields a state where the order is paid with the
synthetic confirmation whose external id is "COD", is delivered with
`deliveredAt` set, and the owner's cart no longer exists. -/
theorem C1_cod_delivery_autopay (db : DB) (admin : Principal) (oid : Nat) (o : Order)
    (now : Nat) (hadmin : admin.isAdmin = true) (ho : findOrder db oid = some o)
    (hcod : o.paymentMethod = "COD") (hunpaid : o.isPaid = false) :
    ∃ db' o', updateOrderStatus admin oid "Delivered" now db = .ok (db', o') ∧
      o'.isPaid = true ∧
      o'.paymentResult = some (codPaymentResult now) ∧
      (codPaymentResult now).id = "COD" ∧
      o'.isDelivered = true ∧
      o'.deliveredAt = some now ∧
      findCart db'.carts o.user = none ∧
      findOrder db' oid = some o' := by
  refine ⟨_, _, updateOrderStatus_delivered_cod admin oid now db o hadmin ho hcod hunpaid,
    rfl, rfl, rfl, rfl, rfl, ?_, ?_⟩
  · exact findCart_deleteCartByUser db.carts o.user
  · exact findOrder_saveOrder_self db oid o _ ho

/-- C1 witness: the COD scenario of tests WB-010 and
WB-ORD-SEC-010c, run on the concrete store `demoDB`. -/
theorem C1_cod_delivery_autopay_witness :
    demoAdmin.isAdmin = true ∧ findOrder demoDB 0 = some codOrder ∧
    codOrder.paymentMethod = "COD" ∧ codOrder.isPaid = false ∧
    (∃ db' o', updateOrderStatus demoAdmin 0 "Delivered" 5 demoDB = .ok (db', o') ∧
      o'.isPaid = true ∧
      o'.paymentResult = some (codPaymentResult 5) ∧
      (codPaymentResult 5).id = "COD" ∧
      o'.isDelivered = true ∧
      o'.deliveredAt = some 5 ∧
      findCart db'.carts codOrder.user = none ∧
      findOrder db' 0 = some o') :=
  ⟨rfl, rfl, rfl, rfl,
    C1_cod_delivery_autopay demoDB demoAdmin 0 codOrder 5 rfl rfl rfl rfl⟩

/-- C2 counterexample: delivering the already-paid COD order
`paidCodOrder` (payment confirmation "EXISTING", as in test WB-014)
leaves its `paymentResult` and `paidAt` untouched — the payment
fields are not re-asserted to the synthetic "COD" confirmation on an
already-paid order, because the handler's guard is
`paymentMethod === 'COD' && !order.isPaid`. -/
theorem C2_counterexample :
    paidCodOrder.paymentMethod = "COD" ∧ paidCodOrder.isPaid = true ∧
    ∃ db' o', updateOrderStatus demoAdmin 0 "Delivered" 7 paidCodDB = .ok (db', o') ∧
      o'.status = "Delivered" ∧ o'.isPaid = true ∧
      Option.map PaymentResult.id o'.paymentResult = some "EXISTING" ∧
      Option.map PaymentResult.id o'.paymentResult ≠ some "COD" ∧
      o'.paidAt = some 1 := by
  refine ⟨rfl, rfl, _, _,
    updateOrderStatus_delivered_noAutoPay demoAdmin 0 7 paidCodDB paidCodOrder rfl rfl
      (by decide), rfl, rfl, rfl, by decide, rfl⟩

/-- C2 amended: when a COD order's status transitions to `Delivered`
via `updateOrderStatus`, the result is paid; the synthetic "COD"
confirmation is written only when the order was unpaid at the time of
the transition, and an already-paid order keeps its existing
`paymentResult` and `paidAt` verbatim. -/
theorem C2_cod_delivery_amended (db : DB) (admin : Principal) (oid : Nat) (o : Order)
    (now : Nat) (hadmin : admin.isAdmin = true) (ho : findOrder db oid = some o)
    (hcod : o.paymentMethod = "COD") :
    ∃ db' o', updateOrderStatus admin oid "Delivered" now db = .ok (db', o') ∧
      o'.isPaid = true ∧
      (o.isPaid = false → o'.paymentResult = some (codPaymentResult now)) ∧
      (o.isPaid = true → o'.paymentResult = o.paymentResult ∧ o'.paidAt = o.paidAt) := by
  by_cases hp : o.isPaid = false
  · refine ⟨_, _, updateOrderStatus_delivered_cod admin oid now db o hadmin ho hcod hp,
      rfl, fun _ => rfl, fun hc => ?_⟩
    rw [hp] at hc
    exact absurd hc (by decide)
  · have hp' : o.isPaid = true := by
      cases h : o.isPaid
      · exact absurd h hp
      · rfl
    refine ⟨_, _,
      updateOrderStatus_delivered_noAutoPay admin oid now db o hadmin ho
        (fun hg => hp hg.2), ?_, fun hc => absurd hc hp, fun _ => ⟨rfl, rfl⟩⟩
    exact hp'

/-- C2 amended witness: the already-paid branch at the concrete store
`paidCodDB`. -/
theorem C2_cod_delivery_amended_witness :
    demoAdmin.isAdmin = true ∧ findOrder paidCodDB 0 = some paidCodOrder ∧
    paidCodOrder.paymentMethod = "COD" ∧
    (∃ db' o', updateOrderStatus demoAdmin 0 "Delivered" 7 paidCodDB = .ok (db', o') ∧
      o'.isPaid = true ∧
      (paidCodOrder.isPaid = false → o'.paymentResult = some (codPaymentResult 7)) ∧
      (paidCodOrder.isPaid = true →
        o'.paymentResult = paidCodOrder.paymentResult ∧
        o'.paidAt = paidCodOrder.paidAt)) :=
  ⟨rfl, rfl, rfl,
    C2_cod_delivery_amended paidCodDB demoAdmin 0 paidCodOrder 7 rfl rfl rfl⟩

/-- C3 counterexample: the three-way equivalence of P3 fails on a
reachable state.  Create an order, deliver it, then move its status
back to `Processing`: the status update touches only the `status`
field, so `isDelivered` stays `true` while `status ≠ "Delivered"`. -/
theorem C3_counterexample :
    Reachable c3DB ∧
    Option.map Order.status (findOrder c3DB 0) = some "Processing" ∧
    Option.map Order.isDelivered (findOrder c3DB 0) = some true ∧
    Option.map Order.status (findOrder c3DB 0) ≠ some "Delivered" :=
  ⟨⟨c3Ops, rfl⟩, rfl, rfl, by decide⟩

/-- C3 amended: on every reachable state, `isDelivered` agrees with
`deliveredAt` being set, and `status == "Delivered"` implies both;
the converse implication (delivered flag forces `Delivered` status)
is what the counterexample refutes. -/
theorem C3_delivery_invariant_amended (db : DB) (h : Reachable db) (oid : Nat)
    (o : Order) (ho : findOrder db oid = some o) :
    (o.isDelivered = true ↔ o.deliveredAt ≠ none) ∧
    (o.status = "Delivered" → o.isDelivered = true ∧ o.deliveredAt ≠ none) := by
  have hc := deliveryConsistent_of_findOrder (ordersInv_reachable h) ho
  exact ⟨hc.1, fun hs => ⟨hc.2 hs, hc.1.mp (hc.2 hs)⟩⟩

/-- C3 amended witness: the invariant evaluated on the freshly
created order of the reachable store `c3wDB`. -/
theorem C3_delivery_invariant_amended_witness :
    (c3wOrder.isDelivered = true ↔ c3wOrder.deliveredAt ≠ none) ∧
    (c3wOrder.status = "Delivered" →
      c3wOrder.isDelivered = true ∧ c3wOrder.deliveredAt ≠ none) :=
  C3_delivery_invariant_amended c3wDB ⟨c3wOps, rfl⟩ 0 c3wOrder rfl

/-- C4: the order created by `createOrder` belongs to the caller from
the token — the payload's owner-like `user` field is ignored — and
starts in state `Pending`, unpaid and undelivered. -/
theorem C4_create_order_ownership (caller : Principal) (p : OrderPayload) (db : DB) :
    (createOrder caller p db).2.user = caller.id ∧
    (createOrder caller p db).2.status = "Pending" ∧
    (createOrder caller p db).2.isPaid = false ∧
    (createOrder caller p db).2.isDelivered = false :=
  ⟨rfl, rfl, rfl, rfl⟩

/-- C5: delivering a non-COD order leaves `isPaid`, `paidAt` and
`paymentResult` exactly as they were; in particular an unpaid PayPal
order stays unpaid after delivery (WB-015). -/
theorem C5_noncod_delivery_payment_frame (db : DB) (admin : Principal) (oid : Nat)
    (o : Order) (now : Nat) (hadmin : admin.isAdmin = true)
    (ho : findOrder db oid = some o) (hncod : o.paymentMethod ≠ "COD") :
    ∃ db' o', updateOrderStatus admin oid "Delivered" now db = .ok (db', o') ∧
      o'.isPaid = o.isPaid ∧ o'.paidAt = o.paidAt ∧
      o'.paymentResult = o.paymentResult ∧
      o'.isDelivered = true ∧ o'.status = "Delivered" :=
  ⟨_, _, updateOrderStatus_delivered_noAutoPay admin oid now db o hadmin ho
      (fun hg => hncod hg.1), rfl, rfl, rfl, rfl, rfl⟩

/-- C5 witness: delivering the unpaid PayPal order of `paypalDB`;
its payment fields are untouched, so it stays unpaid. -/
theorem C5_noncod_delivery_payment_frame_witness :
    demoAdmin.isAdmin = true ∧ findOrder paypalDB 0 = some paypalOrder ∧
    paypalOrder.paymentMethod ≠ "COD" ∧ paypalOrder.isPaid = false ∧
    (∃ db' o', updateOrderStatus demoAdmin 0 "Delivered" 5 paypalDB = .ok (db', o') ∧
      o'.isPaid = paypalOrder.isPaid ∧ o'.paidAt = paypalOrder.paidAt ∧
      o'.paymentResult = paypalOrder.paymentResult ∧
      o'.isDelivered = true ∧ o'.status = "Delivered") :=
  ⟨rfl, rfl, by decide, rfl,
    C5_noncod_delivery_payment_frame paypalDB demoAdmin 0 paypalOrder 5 rfl rfl
      (by decide)⟩

/-- C6: `payOrder` succeeds for any authenticated caller on any
existing order — no ownership check and no already-paid guard — and
writes `isPaid`, `paidAt := now` and the supplied confirmation
verbatim, overwriting any previous payment record. -/
theorem C6_pay_order_unrestricted (db : DB) (caller : Principal) (oid : Nat)
    (o : Order) (pc : PaymentResult) (now : Nat) (ho : findOrder db oid = some o) :
    ∃ db' o', payOrder caller oid pc now db = .ok (db', o') ∧
      o'.isPaid = true ∧ o'.paidAt = some now ∧ o'.paymentResult = some pc ∧
      findOrder db' oid = some o' :=
  ⟨_, _, payOrder_found caller oid pc now db o ho, rfl, rfl, rfl,
    findOrder_saveOrder_self db oid o _ ho⟩

/-- C6 witness: `otherUser` (not the owner) re-pays the already-paid
order of `paidPaypalDB`, overwriting the "ORIGINAL_PAY" confirmation
(tests WB-ORD-SEC-003c and WB-ORD-SEC-004c). -/
theorem C6_pay_order_unrestricted_witness :
    findOrder paidPaypalDB 0 = some paidPaypalOrder ∧
    paidPaypalOrder.user ≠ otherUser.id ∧
    paidPaypalOrder.isPaid = true ∧
    Option.map PaymentResult.id paidPaypalOrder.paymentResult = some "ORIGINAL_PAY" ∧
    (∃ db' o', payOrder otherUser 0 demoConfirmation 9 paidPaypalDB = .ok (db', o') ∧
      o'.isPaid = true ∧ o'.paidAt = some 9 ∧
      o'.paymentResult = some demoConfirmation ∧
      findOrder db' 0 = some o') :=
  ⟨rfl, by decide, rfl, rfl,
    C6_pay_order_unrestricted paidPaypalDB otherUser 0 paidPaypalOrder
      demoConfirmation 9 rfl⟩

/-- C7: `payOrder` deletes the caller's cart unconditionally, and the
clear is idempotent — a second clear in succession is a no-op that
succeeds, and the follow-up COD delivery goes through even though the
cart is already absent. -/
theorem C7_idempotent_cart_clear (db : DB) (caller admin : Principal) (oid : Nat)
    (o : Order) (pc : PaymentResult) (t1 t2 : Nat)
    (hadmin : admin.isAdmin = true) (ho : findOrder db oid = some o) :
    ∃ db1 o1, payOrder caller oid pc t1 db = .ok (db1, o1) ∧
      findCart db1.carts caller.id = none ∧
      deleteCartByUser db1.carts caller.id = db1.carts ∧
      ∃ db2 o2, updateOrderStatus admin oid "Delivered" t2 db1 = .ok (db2, o2) ∧
        findCart db2.carts caller.id = none := by
  refine ⟨_, _, payOrder_found caller oid pc t1 db o ho, ?_, ?_, ?_⟩
  · exact findCart_deleteCartByUser db.carts caller.id
  · exact deleteCartByUser_idem db.carts caller.id
  · refine ⟨_, _,
      updateOrderStatus_delivered_noAutoPay admin oid t2 _ (paidOrder o pc t1) hadmin
        (findOrder_saveOrder_self db oid o _ ho)
        (by intro hg; simp [paidOrder] at hg), ?_⟩
    exact findCart_deleteCartByUser db.carts caller.id

/-- C7 witness: pay the COD order of `demoDB` (whose owner's cart is
present), then deliver it (tests WB-005 and the E2E checkout flow). -/
theorem C7_idempotent_cart_clear_witness :
    demoAdmin.isAdmin = true ∧ findOrder demoDB 0 = some codOrder ∧
    findCart demoDB.carts demoUser.id = some demoCart ∧
    (∃ db1 o1, payOrder demoUser 0 demoConfirmation 3 demoDB = .ok (db1, o1) ∧
      findCart db1.carts demoUser.id = none ∧
      deleteCartByUser db1.carts demoUser.id = db1.carts ∧
      ∃ db2 o2, updateOrderStatus demoAdmin 0 "Delivered" 5 db1 = .ok (db2, o2) ∧
        findCart db2.carts demoUser.id = none) :=
  ⟨rfl, rfl, rfl,
    C7_idempotent_cart_clear demoDB demoUser demoAdmin 0 codOrder demoConfirmation
      3 5 rfl rfl⟩

/-- C8: a non-admin principal calling `updateOrderStatus` or
`listAllOrders` gets the ForbiddenError kind — a constructor distinct
from NotFoundError and UnauthenticatedError — and the store is left
unchanged. -/
theorem C8_role_gate (caller : Principal) (db : DB) (oid : Nat) (st : String)
    (now : Nat) (h : caller.isAdmin = false) :
    updateOrderStatus caller oid st now db = .error .forbidden ∧
    listAllOrders caller db = .error .forbidden ∧
    OrderError.forbidden ≠ OrderError.notFound ∧
    OrderError.forbidden ≠ OrderError.unauthenticated ∧
    applyOp db (Op.setStatus caller oid st now) = db := by
  refine ⟨updateOrderStatus_not_admin caller oid st now db h, ?_, by decide, by decide, ?_⟩
  · simp [listAllOrders, h]
  · rw [applyOp, updateOrderStatus_not_admin caller oid st now db h]

/-- C8 witness: `demoUser` (non-admin) against the concrete store
`demoDB` (tests WB-ORD-SEC-005a and WB-ORD-SEC-006a). -/
theorem C8_role_gate_witness :
    demoUser.isAdmin = false ∧
    (updateOrderStatus demoUser 0 "Processing" 5 demoDB = .error .forbidden ∧
      listAllOrders demoUser demoDB = .error .forbidden ∧
      OrderError.forbidden ≠ OrderError.notFound ∧
      OrderError.forbidden ≠ OrderError.unauthenticated ∧
      applyOp demoDB (Op.setStatus demoUser 0 "Processing" 5) = demoDB) :=
  ⟨rfl, C8_role_gate demoUser demoDB 0 "Processing" 5 rfl⟩

/-- C9: on a nonexistent order id, `payOrder`, `updateOrderStatus`
(called by an admin) and `getOrderById` all fail with the
NotFoundError kind and leave the store unchanged. -/
theorem C9_not_found (db : DB) (oid : Nat) (caller admin : Principal)
    (pc : PaymentResult) (st : String) (now : Nat)
    (hadmin : admin.isAdmin = true) (hf : findOrder db oid = none) :
    payOrder caller oid pc now db = .error .notFound ∧
    updateOrderStatus admin oid st now db = .error .notFound ∧
    getOrderById caller oid db = .error .notFound ∧
    applyOp db (Op.pay caller oid pc now) = db ∧
    applyOp db (Op.setStatus admin oid st now) = db := by
  refine ⟨payOrder_notFound caller oid pc now db hf,
    updateOrderStatus_notFound admin oid st now db hadmin hf,
    getOrderById_notFound caller oid db hf, ?_, ?_⟩
  · rw [applyOp, payOrder_notFound caller oid pc now db hf]
  · rw [applyOp, updateOrderStatus_notFound admin oid st now db hadmin hf]

/-- C9 witness: id 7 does not exist in `demoDB` (tests WB-002,
WB-004, WB-006). -/
theorem C9_not_found_witness :
    demoAdmin.isAdmin = true ∧ findOrder demoDB 7 = none ∧
    (payOrder demoUser 7 demoConfirmation 3 demoDB = .error .notFound ∧
      updateOrderStatus demoAdmin 7 "Delivered" 5 demoDB = .error .notFound ∧
      getOrderById demoUser 7 demoDB = .error .notFound ∧
      applyOp demoDB (Op.pay demoUser 7 demoConfirmation 3) = demoDB ∧
      applyOp demoDB (Op.setStatus demoAdmin 7 "Delivered" 5) = demoDB) :=
  ⟨rfl, rfl,
    C9_not_found demoDB 7 demoUser demoAdmin demoConfirmation "Delivered" 5 rfl rfl⟩

/-- C10: a target status outside the five enumerated values makes
`updateOrderStatus` fail with the ValidationError kind (surfaced in
the reference system as the schema-enum rejection at save time) and
leaves the targeted order unchanged in the store. -/
theorem C10_invalid_status (db : DB) (oid : Nat) (admin : Principal) (o : Order)
    (st : String) (now : Nat) (hadmin : admin.isAdmin = true)
    (ho : findOrder db oid = some o) (hs : st ∉ orderStatuses) :
    updateOrderStatus admin oid st now db = .error .validation ∧
    applyOp db (Op.setStatus admin oid st now) = db ∧
    findOrder (applyOp db (Op.setStatus admin oid st now)) oid = some o := by
  refine ⟨updateOrderStatus_invalid admin oid st now db o hadmin ho hs, ?_, ?_⟩
  · rw [applyOp, updateOrderStatus_invalid admin oid st now db o hadmin ho hs]
  · rw [applyOp, updateOrderStatus_invalid admin oid st now db o hadmin ho hs]
    exact ho

/-- C10 witness: the literal "NotAStatus" from the spec's scenario 6
against the concrete store `demoDB` (test WB-ORD-SEC-006c). -/
theorem C10_invalid_status_witness :
    demoAdmin.isAdmin = true ∧ findOrder demoDB 0 = some codOrder ∧
    "NotAStatus" ∉ orderStatuses ∧
    (updateOrderStatus demoAdmin 0 "NotAStatus" 5 demoDB = .error .validation ∧
      applyOp demoDB (Op.setStatus demoAdmin 0 "NotAStatus" 5) = demoDB ∧
      findOrder (applyOp demoDB (Op.setStatus demoAdmin 0 "NotAStatus" 5)) 0 =
        some codOrder) :=
  ⟨rfl, rfl, by decide,
    C10_invalid_status demoDB 0 demoAdmin codOrder "NotAStatus" 5 rfl rfl (by decide)⟩

end KTPM
